import Mathlib

/-!
Verification of the zenoti_tool core: template store, credential manager,
request executor URL building, and template-to-request resolution.

Python dicts are modelled as association lists with pairwise-distinct keys
(`List (String × α)`); `dict.copy()` followed by `dict.update(overrides)`
becomes `dictUpdate`; machine time is modelled as `Int`; raised exceptions
become `Except` results paired with the (unchanged) state.
-/

/-- Lookup of `m[k]` in a Python-dict association list: first matching key. -/
def dictLookup {α : Type} (m : List (String × α)) (k : String) : Option α :=
  (m.find? (fun p => p.1 == k)).map Prod.snd

/-- Assignment `m[k] = v` on a Python dict: replace the value at an existing
key in place, otherwise append the new pair at the end. -/
def dictInsert {α : Type} : List (String × α) → String → α → List (String × α)
  | [], k, v => [(k, v)]
  | p :: rest, k, v => if p.1 == k then (k, v) :: rest else p :: dictInsert rest k v

/-- `base.update(ovr)` on Python dicts: assign each pair of `ovr` in order. -/
def dictUpdate {α : Type} (base ovr : List (String × α)) : List (String × α) :=
  ovr.foldl (fun acc p => dictInsert acc p.1 p.2) base

/-- The keys of a dict, in order. -/
def dictKeys {α : Type} (m : List (String × α)) : List String := m.map Prod.fst

/-- `payload = template.payload.copy(); if overrides: payload.update(overrides)`
from `BookingManager.book_from_template` / `InvoiceManager.create_from_template`.
A `none` or empty overrides dict is falsy in Python, so the update is skipped. -/
def resolvePayload {α : Type} (payload : List (String × α))
    (overrides : Option (List (String × α))) : List (String × α) :=
  match overrides with
  | none => payload
  | some ovr => if ovr.isEmpty then payload else dictUpdate payload ovr

/-- `Template` dataclass from `templates.py`: a name and a JSON payload. -/
structure Template (α : Type) where
  name : String
  payload : List (String × α)
deriving DecidableEq

/-- `TemplateStore.get`: linear scan for the first template with the name. -/
def TemplateStore.get {α : Type} (store : List (Template α)) (name : String) :
    Option (Template α) :=
  store.find? (fun t => t.name == name)

/-- `TemplateStore.add`: raise `ValueError` (leaving the backing file as it
was) when the name already exists, otherwise append and save.  The returned
pair is (result of the call, contents of the backing file afterwards). -/
def TemplateStore.add {α : Type} (store : List (Template α)) (t : Template α) :
    Except String Unit × List (Template α) :=
  if store.any (fun u => u.name == t.name) then
    (.error ("Template " ++ t.name ++ " already exists"), store)
  else
    (.ok (), store ++ [t])

/-- `TemplateStore.remove`: keep every template whose name differs, save. -/
def TemplateStore.remove {α : Type} (store : List (Template α)) (name : String) :
    List (Template α) :=
  store.filter (fun t => t.name != name)

/-- One mutating operation on the store. -/
inductive StoreOp (α : Type) where
  | add (t : Template α)
  | remove (name : String)

/-- Apply one operation to the backing file contents. -/
def applyOp {α : Type} (store : List (Template α)) : StoreOp α → List (Template α)
  | .add t => (TemplateStore.add store t).2
  | .remove n => TemplateStore.remove store n

/-- Apply a sequence of operations in order. -/
def applyOps {α : Type} (store : List (Template α)) (ops : List (StoreOp α)) :
    List (Template α) :=
  ops.foldl applyOp store

/-- The store holds pairwise-distinct template names. -/
def namesNodup {α : Type} (store : List (Template α)) : Prop :=
  (store.map Template.name).Nodup

/-- One outbound HTTP call made by `ZenotiApiClient.request`. -/
structure HttpCall (α : Type) where
  method : String
  path : String
  body : List (String × α)
deriving DecidableEq

/-- `BookingManager.book_from_template`: look the template up, raise
`ValueError` (making no HTTP call) if absent, otherwise resolve the payload
and pass it to `client.book_appointment`.  The second component records the
HTTP calls performed. -/
def book_from_template {α : Type} (store : List (Template α))
    (location_id template_name : String) (overrides : Option (List (String × α))) :
    Except String (List (String × α)) × List (HttpCall α) :=
  match TemplateStore.get store template_name with
  | none => (.error ("Template " ++ template_name ++ " not found"), [])
  | some t =>
      let payload := resolvePayload t.payload overrides
      (.ok payload,
        [{ method := "POST", path := "v1/locations/" ++ location_id ++ "/appointments",
           body := payload }])

/-- `InvoiceManager.create_from_template`: identical except for the endpoint. -/
def create_from_template {α : Type} (store : List (Template α))
    (location_id template_name : String) (overrides : Option (List (String × α))) :
    Except String (List (String × α)) × List (HttpCall α) :=
  match TemplateStore.get store template_name with
  | none => (.error ("Template " ++ template_name ++ " not found"), [])
  | some t =>
      let payload := resolvePayload t.payload overrides
      (.ok payload,
        [{ method := "POST", path := "v1/locations/" ++ location_id ++ "/invoices",
           body := payload }])

/-- `TokenInfo` dataclass from `client.py`; time is modelled as `Int`. -/
structure TokenInfo where
  access_token : String
  expires_at : Int
deriving DecidableEq

/-- The fields of a token-endpoint JSON response that `TokenInfo.from_response`
reads: top-level `access_token` / `expires_in`, and the same keys inside an
optional nested `credentials` object. -/
structure TokenResponse where
  access_token : Option String
  creds_access_token : Option String
  expires_in : Option Int
  creds_expires_in : Option Int
deriving DecidableEq

/-- Python truthiness of an optional string: `None` and `""` are falsy. -/
def pyTruthy : Option String → Bool
  | none => false
  | some s => s != ""

/-- `TokenInfo.from_response`: `access_token = data.get("access_token") or
credentials.get("access_token")`, `expires_in = data.get("expires_in",
credentials.get("expires_in", 3600))`, `KeyError` when no truthy token, and
`expires_at = time.time() + expires_in - 60` (refresh one minute early). -/
def TokenInfo.from_response (resp : TokenResponse) (now : Int) : Except String TokenInfo :=
  let tok := if pyTruthy resp.access_token then resp.access_token
             else resp.creds_access_token
  let expires_in : Int :=
    match resp.expires_in with
    | some e => e
    | none => resp.creds_expires_in.getD 3600
  match tok with
  | some s =>
      if s != "" then .ok { access_token := s, expires_at := now + expires_in - 60 }
      else .error "access_token"
  | none => .error "access_token"

/-- `TokenInfo.is_valid`: `time.time() < self.expires_at`. -/
def TokenInfo.is_valid (t : TokenInfo) (now : Int) : Bool :=
  now < t.expires_at

/-- Outcome of the POST to the token endpoint at the moment it is made. -/
inductive TokenResult where
  | success (resp : TokenResponse)
  | httpFailure (status : Nat)
deriving DecidableEq

/-- The token-acquisition tail of `ZenotiApiClient._ensure_token`: POST to the
token endpoint; `raise_for_status` on a non-2xx reply and a `KeyError` in
`from_response` both leave `self.token` as it was; on success `self.token` is
replaced.  Result: (returned value or exception, `self.token` afterwards,
number of token-endpoint calls made). -/
def acquireToken (st : Option TokenInfo) (now : Int) (ep : TokenResult) :
    Except String String × Option TokenInfo × Nat :=
  match ep with
  | .httpFailure status => (.error ("HTTP " ++ toString status), st, 1)
  | .success resp =>
      match TokenInfo.from_response resp now with
      | .error e => (.error e, st, 1)
      | .ok tok => (.ok tok.access_token, some tok, 1)

/-- `ZenotiApiClient._ensure_token`: return the cached token when present and
valid (no I/O), otherwise acquire a fresh one. -/
def ensure_token (st : Option TokenInfo) (now : Int) (ep : TokenResult) :
    Except String String × Option TokenInfo × Nat :=
  match st with
  | some tok =>
      if tok.is_valid now then (.ok tok.access_token, some tok, 0)
      else acquireToken (some tok) now ep
  | none => acquireToken none now ep

/-- `ZenotiApiClient.get_access_token`: `if force_refresh: self.token = None`,
then `_ensure_token`. -/
def get_access_token (st : Option TokenInfo) (now : Int) (ep : TokenResult)
    (force_refresh : Bool) : Except String String × Option TokenInfo × Nat :=
  ensure_token (if force_refresh then none else st) now ep

/-- Whether the cached credential exists and is valid at `now`. -/
def hasValidToken (st : Option TokenInfo) (now : Int) : Bool :=
  match st with
  | some t => t.is_valid now
  | none => false

/-- Python `path.lstrip` of slashes. -/
def lstripSlash (s : String) : String :=
  (s.toList.dropWhile (fun c => c == '/')).asString

/-- Python `base_url.rstrip` of slashes. -/
def rstripSlash (s : String) : String :=
  ((s.toList.reverse.dropWhile (fun c => c == '/')).reverse).asString

/-- Python `re.sub(r"/v\d+$", "", s)`: drop a trailing `/v<digits>`. -/
def stripVersionSuffix (s : String) : String :=
  let rcs := s.toList.reverse
  let digits := rcs.takeWhile (fun c => c.isDigit)
  if digits.isEmpty then s
  else
    match rcs.drop digits.length with
    | 'v' :: '/' :: rest => rest.reverse.asString
    | _ => s

/-- The base-URL normalization in `ZenotiConfig.from_env`:
`re.sub(r"/v\d+$", "", base_url.rstrip("/"))`. -/
def normalizeBaseUrl (s : String) : String :=
  stripVersionSuffix (rstripSlash s)

/-- URL building in `ZenotiApiClient.request`:
the f-string concatenating `base_url`, a slash, and the path with
leading slashes stripped. -/
def joinUrl (base path : String) : String :=
  base ++ "/" ++ lstripSlash path

/-- Modelled from the words of the spec (for comparison with `joinUrl`): joining
with "exactly one slash between" the base URL and the path, whatever trailing
or leading slashes the two carry. -/
def oneSlashJoin (base path : String) : String :=
  rstripSlash base ++ "/" ++ lstripSlash path

/-- Whether the last character of a string is a slash. -/
def endsWithSlash (s : String) : Bool :=
  match s.toList.reverse with
  | [] => false
  | c :: _ => c == '/'

-- Lookup lemmas for the dict model

theorem dictLookup_nil {α : Type} (k : String) : dictLookup ([] : List (String × α)) k = none := rfl

theorem dictLookup_cons {α : Type} (p : String × α) (m : List (String × α)) (k : String) :
    dictLookup (p :: m) k = if p.1 = k then some p.2 else dictLookup m k := by
  by_cases h : p.1 = k <;> simp [dictLookup, List.find?_cons, h]

theorem dictLookup_dictInsert {α : Type} (m : List (String × α)) (k : String) (v : α)
    (k' : String) :
    dictLookup (dictInsert m k v) k' = if k = k' then some v else dictLookup m k' := by
  induction m with
  | nil =>
      by_cases h : k = k' <;> simp [dictInsert, dictLookup_cons, h]
  | cons p rest ih =>
      obtain ⟨pk, pv⟩ := p
      by_cases hp : pk = k
      · subst hp
        by_cases h : pk = k' <;> simp [dictInsert, dictLookup_cons, h]
      · have hk : ¬k = pk := fun hc => hp hc.symm
        by_cases h : pk = k'
        · subst h
          simp [dictInsert, dictLookup_cons, hp, hk]
        · simp [dictInsert, dictLookup_cons, hp, h, ih]

theorem dictLookup_eq_none_of_not_mem {α : Type} (m : List (String × α)) (k : String)
    (h : k ∉ dictKeys m) : dictLookup m k = none := by
  induction m with
  | nil => rfl
  | cons p rest ih =>
      simp only [dictKeys, List.map_cons, List.mem_cons, not_or] at h
      rw [dictLookup_cons, if_neg (fun hk => h.1 hk.symm)]
      exact ih h.2

theorem dictLookup_dictUpdate {α : Type} (base ovr : List (String × α))
    (h : (dictKeys ovr).Nodup) (k : String) :
    dictLookup (dictUpdate base ovr) k =
      match dictLookup ovr k with
      | some v => some v
      | none => dictLookup base k := by
  induction ovr generalizing base with
  | nil => rfl
  | cons p rest ih =>
      simp only [dictKeys, List.map_cons, List.nodup_cons] at h
      have step : dictUpdate base (p :: rest) = dictUpdate (dictInsert base p.1 p.2) rest := rfl
      rw [step, ih _ h.2, dictLookup_cons]
      by_cases hk : p.1 = k
      · have hrest : dictLookup rest k = none := by
          apply dictLookup_eq_none_of_not_mem
          rw [← hk]
          exact h.1
        rw [hrest, if_pos hk, dictLookup_dictInsert, if_pos hk]
      · rw [if_neg hk]
        cases hfind : dictLookup rest k with
        | some v => rfl
        | none => rw [dictLookup_dictInsert, if_neg hk]

theorem namesNodup_add {α : Type} (store : List (Template α)) (t : Template α)
    (h : namesNodup store) : namesNodup (TemplateStore.add store t).2 := by
  unfold TemplateStore.add
  split
  · exact h
  · next hany =>
      unfold namesNodup at *
      rw [List.map_append, List.nodup_append]
      refine ⟨h, List.nodup_singleton _, fun a ha hb => ?_⟩
      rw [List.map_cons, List.map_nil, List.mem_singleton] at hb
      subst hb
      apply hany
      rw [List.any_eq_true]
      rw [List.mem_map] at ha
      obtain ⟨u, hu, he⟩ := ha
      exact ⟨u, hu, by simpa using he⟩

theorem namesNodup_remove {α : Type} (store : List (Template α)) (n : String)
    (h : namesNodup store) : namesNodup (TemplateStore.remove store n) := by
  unfold namesNodup TemplateStore.remove at *
  exact h.sublist ((List.filter_sublist store).map Template.name)

theorem applyOps_preserves_nodup {α : Type} (ops : List (StoreOp α))
    (store : List (Template α)) (h : namesNodup store) :
    namesNodup (applyOps store ops) := by
  induction ops generalizing store with
  | nil => exact h
  | cons op rest ih =>
      have hstep : applyOps store (op :: rest) = applyOps (applyOp store op) rest := rfl
      rw [hstep]
      apply ih
      cases op with
      | add t => exact namesNodup_add store t h
      | remove n => exact namesNodup_remove store n h

theorem rstrip_list (l : List Char)
    (h : (match l.reverse with | [] => false | c :: _ => c == '/') = false) :
    (l.reverse.dropWhile (fun c => c == '/')).reverse = l := by
  cases hrev : l.reverse with
  | nil =>
      have hl : l = [] := by simpa using congrArg List.reverse hrev
      subst hl
      rfl
  | cons c rest =>
      rw [hrev] at h
      have hc : (c == '/') = false := h
      rw [List.dropWhile_cons, hc]
      simp only [Bool.false_eq_true, if_false]
      rw [← hrev, List.reverse_reverse]

theorem rstripSlash_eq_self (s : String) (h : endsWithSlash s = false) :
    rstripSlash s = s := by
  cases s with
  | mk data =>
      have h2 : (match data.reverse with | [] => false | c :: _ => c == '/') = false := h
      have h3 := rstrip_list data h2
      show ((data.reverse.dropWhile (fun c => c == '/')).reverse).asString = String.mk data
      rw [h3]
      rfl

theorem resolvePayload_some_of_ne_nil {α : Type} (payload ovr : List (String × α))
    (he : ovr.isEmpty = false) :
    resolvePayload payload (some ovr) = dictUpdate payload ovr := by
  simp [resolvePayload, he]

/-- C1: resolving a template against an overrides dict is the shallow
top-level merge: every key of the overrides maps to the overrides value,
every other key keeps the value of the template payload, and with no
overrides the result is exactly the template payload. -/
theorem resolve_merge_law {α : Type} (payload ovr : List (String × α))
    (h : (dictKeys ovr).Nodup) :
    (∀ k v, dictLookup ovr k = some v →
      dictLookup (resolvePayload payload (some ovr)) k = some v) ∧
    (∀ k, dictLookup ovr k = none →
      dictLookup (resolvePayload payload (some ovr)) k = dictLookup payload k) ∧
    resolvePayload payload none = payload := by
  refine ⟨?_, ?_, rfl⟩
  · intro k v hk
    have hne : ovr ≠ [] := by
      intro hnil
      rw [hnil] at hk
      simp [dictLookup] at hk
    have he : ovr.isEmpty = false := by
      cases ovr with
      | nil => exact absurd rfl hne
      | cons p rest => rfl
    rw [resolvePayload_some_of_ne_nil payload ovr he]
    rw [dictLookup_dictUpdate payload ovr h k, hk]
  · intro k hk
    cases he : ovr.isEmpty with
    | true =>
        have hnil : ovr = [] := List.isEmpty_iff.mp he
        subst hnil
        simp [resolvePayload]
    | false =>
        rw [resolvePayload_some_of_ne_nil payload ovr he]
        rw [dictLookup_dictUpdate payload ovr h k, hk]

theorem resolve_merge_law_witness :
    dictLookup (resolvePayload [("a", (1 : Int)), ("b", 2)]
      (some [("b", 3), ("c", 4)])) "b" = some 3 ∧
    dictLookup (resolvePayload [("a", (1 : Int)), ("b", 2)]
      (some [("b", 3), ("c", 4)])) "a" = some 1 ∧
    resolvePayload [("a", (1 : Int)), ("b", 2)] none = [("a", 1), ("b", 2)] ∧
    resolvePayload [("a", (1 : Int)), ("b", 2)] (some [("b", 3), ("c", 4)]) =
      [("a", 1), ("b", 3), ("c", 4)] := by
  have hmain := resolve_merge_law [("a", (1 : Int)), ("b", 2)] [("b", 3), ("c", 4)]
    (by decide)
  exact ⟨hmain.1 "b" 3 (by decide), hmain.2.1 "a" (by decide), hmain.2.2, by decide⟩

/-- C2: a credential acquired at time t0 with expires_in = 3600 stores
expires_at = t0 + 3600 - 60, and is_valid is the strict comparison
now < t0 + 3540: true strictly below, false at or above. -/
theorem token_validity (resp : TokenResponse) (t0 now : Int) (s : String)
    (h1 : resp.access_token = some s) (h2 : s ≠ "") (h3 : resp.expires_in = some 3600) :
    TokenInfo.from_response resp t0 =
      .ok { access_token := s, expires_at := t0 + 3600 - 60 } ∧
    (TokenInfo.is_valid { access_token := s, expires_at := t0 + 3600 - 60 } now = true ↔
      now < t0 + 3540) ∧
    (TokenInfo.is_valid { access_token := s, expires_at := t0 + 3600 - 60 } now = false ↔
      t0 + 3540 ≤ now) := by
  have hb : (s != "") = true := by simpa [bne_iff_ne] using h2
  refine ⟨?_, ?_, ?_⟩
  · simp [TokenInfo.from_response, pyTruthy, h1, h3, hb]
  · simp only [TokenInfo.is_valid, decide_eq_true_eq]
    omega
  · simp only [TokenInfo.is_valid, decide_eq_false_iff_not, not_lt]
    omega

theorem token_validity_witness :
    TokenInfo.from_response ⟨some "tok", none, some 3600, none⟩ 1000 =
      .ok { access_token := "tok", expires_at := 1000 + 3600 - 60 } ∧
    (TokenInfo.is_valid { access_token := "tok", expires_at := 1000 + 3600 - 60 } 4539 = true ↔
      (4539 : Int) < 1000 + 3540) ∧
    (TokenInfo.is_valid { access_token := "tok", expires_at := 1000 + 3600 - 60 } 4539 = false ↔
      (1000 : Int) + 3540 ≤ 4539) :=
  token_validity ⟨some "tok", none, some 3600, none⟩ 1000 4539 "tok" rfl (by decide) rfl

/-- C3: adding a template whose name equals the name of an already-stored
template fails with the duplicate-name error and leaves the backing file
unchanged. -/
theorem add_duplicate_fails {α : Type} (store : List (Template α)) (t : Template α)
    (h : ∃ u ∈ store, u.name = t.name) :
    (TemplateStore.add store t).1 =
      .error ("Template " ++ t.name ++ " already exists") ∧
    (TemplateStore.add store t).2 = store := by
  have hany : store.any (fun u => u.name == t.name) = true := by
    rw [List.any_eq_true]
    obtain ⟨u, hu, he⟩ := h
    exact ⟨u, hu, by simpa using he⟩
  simp [TemplateStore.add, hany]

theorem add_duplicate_fails_witness :
    (TemplateStore.add [⟨"facial", []⟩] (⟨"facial", [("a", (1 : Int))]⟩ : Template Int)).1 =
      .error ("Template " ++ "facial" ++ " already exists") ∧
    (TemplateStore.add [⟨"facial", []⟩] (⟨"facial", [("a", (1 : Int))]⟩ : Template Int)).2 =
      [⟨"facial", []⟩] :=
  add_duplicate_fails [⟨"facial", []⟩] ⟨"facial", [("a", 1)]⟩
    ⟨⟨"facial", []⟩, List.mem_singleton.mpr rfl, rfl⟩

/-- C4: resolving a booking or invoice request for a template name absent
from the store fails with the not-found error and performs zero HTTP
calls. -/
theorem missing_template_no_http {α : Type} (store : List (Template α))
    (loc tname : String) (ovr : Option (List (String × α)))
    (h : TemplateStore.get store tname = none) :
    book_from_template store loc tname ovr =
      (.error ("Template " ++ tname ++ " not found"), []) ∧
    create_from_template store loc tname ovr =
      (.error ("Template " ++ tname ++ " not found"), ([] : List (HttpCall α))) := by
  constructor <;> simp [book_from_template, create_from_template, h]

theorem missing_template_no_http_witness :
    book_from_template ([] : List (Template Int)) "L1" "ghost" none =
      (.error ("Template " ++ "ghost" ++ " not found"), []) ∧
    create_from_template ([] : List (Template Int)) "L1" "ghost" none =
      (.error ("Template " ++ "ghost" ++ " not found"), ([] : List (HttpCall Int))) :=
  missing_template_no_http [] "L1" "ghost" none rfl

/-- C5: get_access_token without forced refresh returns the cached token
with zero token-endpoint calls when a valid credential is cached, and
otherwise performs exactly one token-endpoint request and returns the
freshly acquired token. -/
theorem get_token_cached_or_acquire (st : Option TokenInfo) (now : Int)
    (resp : TokenResponse) (newTok : TokenInfo)
    (hresp : TokenInfo.from_response resp now = .ok newTok) :
    (∀ tok, st = some tok → tok.is_valid now = true →
      ∀ ep, get_access_token st now ep false = (.ok tok.access_token, some tok, 0)) ∧
    (hasValidToken st now = false →
      get_access_token st now (.success resp) false =
        (.ok newTok.access_token, some newTok, 1)) := by
  constructor
  · intro tok hst hv ep
    subst hst
    simp [get_access_token, ensure_token, hv]
  · intro hinv
    cases st with
    | none => simp [get_access_token, ensure_token, acquireToken, hresp]
    | some tok =>
        have hv : tok.is_valid now = false := by simpa [hasValidToken] using hinv
        simp [get_access_token, ensure_token, hv, acquireToken, hresp]

theorem get_token_cached_or_acquire_witness :
    get_access_token (some ⟨"cached", 100⟩) 50
        (.success ⟨some "new", none, some 3600, none⟩) false =
      (.ok "cached", some ⟨"cached", 100⟩, 0) ∧
    get_access_token none 50 (.success ⟨some "new", none, some 3600, none⟩) false =
      (.ok "new", some ⟨"new", 50 + 3600 - 60⟩, 1) := by
  constructor
  · exact (get_token_cached_or_acquire (some ⟨"cached", 100⟩) 50
      ⟨some "new", none, some 3600, none⟩ ⟨"new", 50 + 3600 - 60⟩ rfl).1
      ⟨"cached", 100⟩ rfl (by decide) _
  · exact (get_token_cached_or_acquire none 50
      ⟨some "new", none, some 3600, none⟩ ⟨"new", 50 + 3600 - 60⟩ rfl).2 rfl

/-- C6: get_access_token with force_refresh = true discards any cached
credential (behaving exactly as if no token were cached) and makes exactly
one token-endpoint call, even when the cached token is still valid. -/
theorem force_refresh_single_call (st : Option TokenInfo) (now : Int) (ep : TokenResult) :
    get_access_token st now ep true = acquireToken none now ep ∧
    (get_access_token st now ep true).2.2 = 1 := by
  refine ⟨rfl, ?_⟩
  cases ep with
  | httpFailure status => rfl
  | success resp =>
      cases h : TokenInfo.from_response resp now with
      | error e => simp [get_access_token, ensure_token, acquireToken, h]
      | ok tok => simp [get_access_token, ensure_token, acquireToken, h]

/-- C7: removing a name that matches no stored template raises no error and
leaves the store contents unchanged. -/
theorem remove_absent_noop {α : Type} (store : List (Template α)) (nm : String)
    (h : ∀ u ∈ store, u.name ≠ nm) :
    TemplateStore.remove store nm = store := by
  unfold TemplateStore.remove
  rw [List.filter_eq_self]
  intro u hu
  simpa [bne_iff_ne] using h u hu

theorem remove_absent_noop_witness :
    TemplateStore.remove [(⟨"a", [("x", (1 : Int))]⟩ : Template Int)] "b" =
      [⟨"a", [("x", 1)]⟩] :=
  remove_absent_noop [⟨"a", [("x", 1)]⟩] "b" (by decide)

/-- C8: starting from a store with pairwise-distinct template names, any
sequence of add and remove operations preserves name uniqueness, and a
template that is successfully added appears exactly once in the resulting
listing. -/
theorem store_name_uniqueness {α : Type} (store : List (Template α))
    (ops : List (StoreOp α)) (h : namesNodup store) :
    namesNodup (applyOps store ops) ∧
    ∀ t : Template α, (TemplateStore.add store t).1 = .ok () →
      ((TemplateStore.add store t).2.filter (fun u => u.name == t.name)).length = 1 := by
  refine ⟨applyOps_preserves_nodup ops store h, ?_⟩
  intro t hok
  have hany : store.any (fun u => u.name == t.name) = false := by
    cases hc : store.any (fun u => u.name == t.name) with
    | false => rfl
    | true => simp [TemplateStore.add, hc] at hok
  have h2 : (TemplateStore.add store t).2 = store ++ [t] := by
    simp [TemplateStore.add, hany]
  rw [h2, List.filter_append]
  have hnone : store.filter (fun u => u.name == t.name) = [] := by
    rw [List.filter_eq_nil_iff]
    intro u hu
    have := List.any_eq_false.mp hany u hu
    simpa using this
  rw [hnone]
  simp

theorem store_name_uniqueness_witness :
    namesNodup (applyOps ([] : List (Template Int))
      [.add ⟨"a", []⟩, .add ⟨"b", []⟩, .remove "a"]) ∧
    ∀ t : Template Int, (TemplateStore.add ([] : List (Template Int)) t).1 = .ok () →
      ((TemplateStore.add ([] : List (Template Int)) t).2.filter
        (fun u => u.name == t.name)).length = 1 :=
  store_name_uniqueness [] [.add ⟨"a", []⟩, .add ⟨"b", []⟩, .remove "a"]
    List.nodup_nil

/-- C9 (counterexample): the claim that the URL join always leaves exactly
one slash between base and path fails: the configured base URL
"https://x//v1" normalizes to "https://x/" (a base ending in a slash), and
the request join then produces "https://x//p" — two slashes, not one. -/
theorem joinUrl_counterexample :
    normalizeBaseUrl "https://x//v1" = "https://x/" ∧
    joinUrl (normalizeBaseUrl "https://x//v1") "p" = "https://x//p" ∧
    joinUrl (normalizeBaseUrl "https://x//v1") "p" ≠
      oneSlashJoin (normalizeBaseUrl "https://x//v1") "p" :=
  ⟨by decide, by decide, by decide⟩

/-- C9 (amended): when the configured base URL does not end with a slash,
the request join produces exactly one slash between the base URL and the
path, regardless of how many leading slashes the path carries. -/
theorem joinUrl_one_slash (base path : String) (h : endsWithSlash base = false) :
    joinUrl base path = oneSlashJoin base path := by
  unfold joinUrl oneSlashJoin
  rw [rstripSlash_eq_self base h]

theorem joinUrl_one_slash_witness :
    endsWithSlash "https://x" = false ∧
    joinUrl "https://x" "///p" = oneSlashJoin "https://x" "///p" :=
  ⟨by decide, joinUrl_one_slash "https://x" "///p" (by decide)⟩

/-- C10: a forced refresh whose token-endpoint POST fails is not atomic:
the cached credential was discarded before the request, so the manager is
left with no token (state Absent) instead of the old still-valid one. -/
theorem forced_refresh_failure_discards (tok : TokenInfo) (now : Int) (status : Nat)
    (_valid : tok.is_valid now = true) :
    get_access_token (some tok) now (.httpFailure status) true =
      (.error ("HTTP " ++ toString status), none, 1) := rfl

theorem forced_refresh_failure_discards_witness :
    TokenInfo.is_valid ⟨"t", 100⟩ 50 = true ∧
    get_access_token (some ⟨"t", 100⟩) 50 (.httpFailure 500) true =
      (.error ("HTTP " ++ toString 500), none, 1) :=
  ⟨by decide, forced_refresh_failure_discards ⟨"t", 100⟩ 50 500 (by decide)⟩
